import Mathlib

/-!
# Verification of the bbf burn-in engine (`src/bbf_burnin.cpp`)

A shallow embedding of the burn-in verification engine of bbf.  The block
device (`blkdev.hpp`) is an external collaborator, so it is modelled as a
record of operations parametric in a device-model state type `σ`: each
read/write returns a C-style status (`Int`, negative on failure) and threads
the model state.  Buffers are `List Nat` of byte values.  Machine integers in
the source are `uint64_t`/`size_t` (embedded as `Nat`; no arithmetic in the
engine can overflow 64 bits for the inputs considered, and the one
subtraction, `block_count - block_`, is guarded by the source) and C `int`
statuses (embedded as `Int`).
-/

namespace Bbf

/-- errno EINVAL, as the negative status `-EINVAL` is what the source
compares against. -/
def EINVAL : Int := 22

/-- The block-device collaborator (`blkdev.hpp`, external per the spec).
`read st block count buflen` returns `(status, bytes read, st')`;
`write st block count buf buflen` returns `(status, st')`. -/
structure BlkDev (σ : Type) where
  logical_block_count : Nat
  logical_block_size : Nat
  block_stepping : Nat
  read : σ → Nat → Nat → Nat → Int × List Nat × σ
  write : σ → Nat → Nat → List Nat → Nat → Int × σ

/-- `trim_stepping` (bbf_burnin.cpp:35-49): returns 0 when `block_ >
block_count`, otherwise `min(block_count - block_, stepping_)`. -/
def trim_stepping {σ : Type} (d : BlkDev σ) (block_ stepping_ : Nat) : Nat :=
  let block_count := d.logical_block_count
  if block_ > block_count then 0
  else min (block_count - block_) stepping_

/-- The write retry loop `rv = -1; for(i = 0; i <= retries && rv < 0; i++)
rv = blkdev.write(...)`: up to `retries + 1` attempts, stopping at the first
non-negative status. -/
def retry_write {σ : Type} (d : BlkDev σ) (block count : Nat) (buf : List Nat)
    (buflen : Nat) : Nat → σ → Int × σ
  | 0, st => d.write st block count buf buflen
  | r + 1, st =>
      let (rv, st') := d.write st block count buf buflen
      if rv < 0 then retry_write d block count buf buflen r st' else (rv, st')

/-- The read retry loop, same policy as `retry_write`.  Every attempt writes
into the caller's buffer, so the returned buffer is the data of the last
attempt made. -/
def retry_read {σ : Type} (d : BlkDev σ) (block count buflen : Nat) :
    Nat → σ → Int × List Nat × σ
  | 0, st => d.read st block count buflen
  | r + 1, st =>
      let (rv, data, st') := d.read st block count buflen
      if rv < 0 then retry_read d block count buflen r st' else (rv, data, st')

/-- `write_read_compare` (bbf_burnin.cpp:51-82): write the pattern with
retries, read it back with retries, `memcmp`.  Returns the status, the
caller's buffer (clobbered by the reads when they ran), and the device
state.  A comparison mismatch is `-EIO` (= -5). -/
def write_read_compare {σ : Type} (d : BlkDev σ) (stepping_ block : Nat)
    (buf : List Nat) (buflen retries : Nat) (write_buf : List Nat) (st : σ) :
    Int × List Nat × σ :=
  let (rv, st) := retry_write d block stepping_ write_buf buflen retries st
  if rv < 0 then (rv, buf, st)
  else
    let (rv, buf, st) := retry_read d block stepping_ buflen retries st
    if rv < 0 then (rv, buf, st)
    else if write_buf = buf then (0, buf, st)
    else (-5, buf, st)

/-- Step 1 of `burn_block` (bbf_burnin.cpp:96-101): read the batch's current
contents with retries; if all attempts fail, `memset(buf_, 0, buflen_)`
substitutes an all-zero buffer.  Returns the read status, the resulting
buffer, and the device state. -/
def capture_phase {σ : Type} (d : BlkDev σ) (stepping_ block buflen retries : Nat)
    (st : σ) : Int × List Nat × σ :=
  let (rv, buf, st) := retry_read d block stepping_ buflen retries st
  if rv < 0 then (rv, List.replicate buflen 0, st) else (rv, buf, st)

/-- Step 2 of `burn_block` (bbf_burnin.cpp:103-104): `for(i...) rv =
write_read_compare(..., patterns_[i])`.  The status of each iteration is
overwritten by the next; the buffer and device state thread through. -/
def pattern_phase {σ : Type} (d : BlkDev σ) (stepping_ block buflen retries : Nat) :
    List (List Nat) → Int × List Nat × σ → Int × List Nat × σ
  | [], acc => acc
  | p :: ps, (_, buf, st) =>
      pattern_phase d stepping_ block buflen retries ps
        (write_read_compare d stepping_ block buf buflen retries p st)

/-- `burn_block` (bbf_burnin.cpp:84-111), the Step Tester, written as the
source's straight line: read-with-retries (zero-fill on failure), one
`write_read_compare` per pattern with each status overwritten, then the
final write-back of `buf_` with retries; the returned status is that of the
final write loop. -/
def burn_block {σ : Type} (d : BlkDev σ) (stepping_ block buflen retries : Nat)
    (patterns_ : List (List Nat)) (st : σ) : Int × List Nat × σ :=
  let (rv, buf, st) := retry_read d block stepping_ buflen retries st
  let buf := if rv < 0 then List.replicate buflen 0 else buf
  let (_, buf, st) := pattern_phase d stepping_ block buflen retries patterns_ (rv, buf, st)
  let (rv, st) := retry_write d block stepping_ buf buflen retries st
  (rv, buf, st)

/-- The mutable state of `burnin_loop`: the cursor, the bad-block vector,
the device-model state and the last `rv`. -/
structure LoopState (σ : Type) where
  block : Nat
  badblocks : List Nat
  st : σ
  rv : Int

/-- How one run of `burnin_loop` exited (the spec's §4.5 state machine;
`fuel` marks an exhausted fuel bound, never reached with enough fuel). -/
inductive LoopExit
  | completed
  | signaled
  | fatal
  | limit
  | fuel
deriving DecidableEq, Repr

/-- The body of `burnin_loop` (bbf_burnin.cpp:142-174), one `while` step per
fuel unit.  `signaled iter` models `signals::signaled_to_exit()` at
iteration `iter`.  The `SIGALRM`/`Info::print` branch only prints and is
omitted.  Note two facts taken from the source verbatim: `burn_block` is
invoked with the untrimmed `stepping_`, and `block += stepping` happens
before the bad-block `push_back` loop, so the addresses pushed are
`(block + stepping) + i`. -/
def burnin_loop_go {σ : Type} (d : BlkDev σ) (end_block stepping_ buflen : Nat)
    (max_errors_ retries : Nat) (patterns : List (List Nat))
    (signaled : Nat → Bool) : Nat → Nat → LoopState σ → LoopState σ × LoopExit
  | 0, _, s => (s, .fuel)
  | fuel + 1, iter, s =>
      if s.block < end_block then
        if signaled iter then (s, .signaled)
        else
          let stepping := trim_stepping d s.block stepping_
          let (rv, _, st') := burn_block d stepping_ s.block buflen retries patterns s.st
          let block' := s.block + stepping
          if rv ≥ 0 then
            burnin_loop_go d end_block stepping_ buflen max_errors_ retries
              patterns signaled fuel (iter + 1) ⟨block', s.badblocks, st', rv⟩
          else if rv = -EINVAL then (⟨block', s.badblocks, st', rv⟩, .fatal)
          else
            let bad' := s.badblocks ++ (List.range stepping).map (fun i => block' + i)
            if bad'.length > max_errors_ then (⟨block', bad', st', rv⟩, .limit)
            else
              burnin_loop_go d end_block stepping_ buflen max_errors_ retries
                patterns signaled fuel (iter + 1) ⟨block', bad', st', rv⟩
      else (s, .completed)

/-- The fixed pattern set built at the top of `burnin_loop`
(bbf_burnin.cpp:132-136): four buffers of `buflen_` bytes `0x00, 0x55, 0xAA,
0xFF`. -/
def mk_patterns (buflen : Nat) : List (List Nat) :=
  [List.replicate buflen 0x00, List.replicate buflen 0x55,
   List.replicate buflen 0xAA, List.replicate buflen 0xFF]

/-- `burnin_loop` (bbf_burnin.cpp:113-181): build the patterns, start the
cursor at `start_block`, and iterate.  The source leaves `rv` uninitialized
when the loop body never runs; it is 0 here (all claims considered execute
at least one iteration). -/
def burnin_loop {σ : Type} (d : BlkDev σ) (start_block end_block stepping_ : Nat)
    (buflen : Nat) (badblocks : List Nat) (max_errors_ retries : Nat)
    (signaled : Nat → Bool) (fuel : Nat) (st : σ) : LoopState σ × LoopExit :=
  burnin_loop_go d end_block stepping_ buflen max_errors_ retries
    (mk_patterns buflen) signaled fuel 0 ⟨start_block, badblocks, st, 0⟩

/-- Modelled from the spec: `math.hpp` is not under `src/`; the spec says the
effective start is the requested start "rounded down to a multiple of the
stepping" (`math::round_down`). -/
def round_down (number multiple : Nat) : Nat :=
  number / multiple * multiple

/-- Modelled from the spec: `math.hpp` is not under `src/`; `math::round_up`
rounds up to a multiple of its second argument. -/
def round_up (number multiple : Nat) : Nat :=
  (number + (multiple - 1)) / multiple * multiple

/-- The burn-in run parameters from `Options` (options.cpp validates
`retries ≥ 1` and `start_block < end_block`). -/
structure Options where
  start_block : Nat
  end_block : Nat
  stepping : Nat
  retries : Nat
  max_errors : Nat

/-- The run-parameter computation of the middle `burnin`
(bbf_burnin.cpp:197-205): effective stepping (0 means the device default),
buffer length, start block rounded down, end block clamped to the device,
rounded up, clamped again.  Returns `(stepping, buflen, start_block,
end_block)`. -/
def burnin_params {σ : Type} (d : BlkDev σ) (opts : Options) : Nat × Nat × Nat × Nat :=
  let stepping := if opts.stepping = 0 then d.block_stepping else opts.stepping
  let buflen := stepping * d.logical_block_size
  let start_block := round_down opts.start_block stepping
  let end_block := min opts.end_block d.logical_block_count
  let end_block := round_up end_block stepping
  let end_block := min end_block d.logical_block_count
  (stepping, buflen, start_block, end_block)

/-- Modelled from the spec: `errors.hpp` (`AppError`) is not under `src/`.
The spec's §7 error taxonomy distinguishes a successful result, a fatal
runtime error from the burn-in itself, and reportable failures for writing
the bad-block file and closing the device. -/
inductive AppError
  | success
  | runtime (code : Int)
  | writing_badblocks_file (code : Int)
  | closing_device (code : Int)
deriving DecidableEq, Repr

/-- Modelled from the spec: `AppError::succeeded()` holds exactly of the
success result. -/
def AppError.succeeded : AppError → Bool
  | .success => true
  | _ => false

/-- The tail of the middle `burnin` (bbf_burnin.cpp:244-247): a negative
loop status becomes a fatal runtime error, otherwise success. -/
def burnin_mid_result (rv : Int) : AppError :=
  if rv < 0 then .runtime (-rv) else .success

/-- The result combination at the end of the outer `burnin`
(bbf_burnin.cpp:303-315): after the run, the bad-block file is written and
the device closed; each failure replaces `err` only when `err` was still
successful. -/
def burnin_post (run_err : AppError) (write_rv close_rv : Int) : AppError :=
  let err := run_err
  let err := if write_rv < 0 ∧ err.succeeded then
    AppError.writing_badblocks_file (-write_rv) else err
  let err := if close_rv < 0 ∧ err.succeeded then
    AppError.closing_device (-close_rv) else err
  err

/-- The middle `burnin` (bbf_burnin.cpp:183-248) assembled over a device
model: compute the parameters, run the loop seeded with the bad-block list
imported by the outer `burnin` (bbf_burnin.cpp:295-299), and map the final
status.  Returns the loop end state, the exit kind and the `AppError`. -/
def burnin_run {σ : Type} (d : BlkDev σ) (opts : Options) (imported : List Nat)
    (signaled : Nat → Bool) (fuel : Nat) (st : σ) :
    LoopState σ × LoopExit × AppError :=
  let (stepping, buflen, start_block, end_block) := burnin_params d opts
  let (s, ex) := burnin_loop d start_block end_block stepping buflen imported
    opts.max_errors opts.retries signaled fuel st
  (s, ex, burnin_mid_result s.rv)

end Bbf

namespace Bbf

/-! ## Concrete device models used as witnesses and failing inputs -/

/-- A 1000-block device (block size 1) on which every write addressed to
block 300 fails with a generic I/O error (-5) and all other operations
succeed; reads return zeros. -/
def failDev300 : BlkDev Unit where
  logical_block_count := 1000
  logical_block_size := 1
  block_stepping := 100
  read _ _ _ buflen := (0, List.replicate buflen 0, ())
  write _ block _ _ _ := (if block = 300 then -5 else 0, ())

/-- A 4-block in-memory device (block size 1) whose state is its byte
content; every operation succeeds. -/
def memDev4 : BlkDev (List Nat) where
  logical_block_count := 4
  logical_block_size := 1
  block_stepping := 2
  read st block _ buflen := (0, (st.drop block).take buflen, st)
  write st block _ buf _ := (0, st.take block ++ buf ++ st.drop (block + buf.length))

/-- A 5-block device (block size 1) whose state logs every operation as
`(is_write, block, count)`; every operation succeeds, reads return zeros. -/
def logDev5 : BlkDev (List (Bool × Nat × Nat)) where
  logical_block_count := 5
  logical_block_size := 1
  block_stepping := 2
  read st block count buflen := (0, List.replicate buflen 0, st ++ [(false, block, count)])
  write st block count _ _ := (0, st ++ [(true, block, count)])

/-- A device whose state counts write attempts: the first write returns
`-EINVAL`, every later write succeeds; reads succeed with zeros. -/
def einvalOnceDev : BlkDev Nat where
  logical_block_count := 16
  logical_block_size := 1
  block_stepping := 1
  read st _ _ buflen := (0, List.replicate buflen 0, st)
  write st _ _ _ _ := (if st = 0 then -EINVAL else 0, st + 1)

/-- A device on which every write fails with `-EINVAL`; reads succeed with
zeros. -/
def einvalDev : BlkDev Unit where
  logical_block_count := 16
  logical_block_size := 1
  block_stepping := 1
  read _ _ _ buflen := (0, List.replicate buflen 0, ())
  write _ _ _ _ _ := (-EINVAL, ())

/-- A device whose state counts write attempts: the first four writes fail
with `-EINVAL` and every later write succeeds, so with retry bound 0 and
the four fixed patterns every pattern-phase write fails with `-EINVAL`
while the final restore write succeeds; reads succeed with zeros. -/
def einvalPatternDev : BlkDev Nat where
  logical_block_count := 16
  logical_block_size := 1
  block_stepping := 1
  read st _ _ buflen := (0, List.replicate buflen 0, st)
  write st _ _ _ _ := (if st < 4 then -EINVAL else 0, st + 1)

/-- A 10-block device (block size 1) on which every write addressed to
block 0 fails with a generic I/O error (-5); everything else succeeds. -/
def failDev0 : BlkDev Unit where
  logical_block_count := 10
  logical_block_size := 1
  block_stepping := 2
  read _ _ _ buflen := (0, List.replicate buflen 0, ())
  write _ block _ _ _ := (if block = 0 then -5 else 0, ())

/-! ## Claim theorems -/

/-- C1: the claim says a bad batch starting at block `b` of size `s` gets
the addresses `b, ..., b+s-1` appended, so that with only the batch
`[300..400)` failing its restore the list afterward is exactly
`[300..400)`.  The code advances the cursor (`block += stepping`,
bbf_burnin.cpp:159) before the `push_back` loop (bbf_burnin.cpp:169-170),
so it appends `[400..500)` instead: running the embedded loop over a
1000-block device whose writes fail exactly at block 300 (stepping 100,
retries 2, generous error ceiling) yields the next batch's addresses, the
run completing. -/
theorem C1_bad_batch_records_next_batch :
    (burnin_loop failDev300 0 1000 100 100 [] 1000 2 (fun _ => false) 20 ()).1.badblocks
      = (List.range 100).map (fun i => 400 + i)
    ∧ (burnin_loop failDev300 0 1000 100 100 [] 1000 2 (fun _ => false) 20 ()).1.badblocks
      ≠ (List.range 100).map (fun i => 300 + i)
    ∧ (burnin_loop failDev300 0 1000 100 100 [] 1000 2 (fun _ => false) 20 ()).2
      = LoopExit.completed := by
  refine ⟨by rfl, by decide, by rfl⟩

/-- C2: the claim says the restore write of Step 3 writes back exactly the
content captured in Step 1.  On a healthy 4-block in-memory device holding
`[7, 9, 3, 4]`, Step 1 captures `[7, 9]` for the batch `[0..2)`, but the
pattern phase reads each pattern back into the same buffer
(bbf_burnin.cpp:104 passes `buf_` to `write_read_compare`, whose read at
line 72 overwrites it), so the final write restores the last pattern
readback `[255, 255]` (0xFF), leaving the device `[255, 255, 3, 4]` with a
success status. -/
theorem C2_restore_writes_last_pattern :
    capture_phase memDev4 2 0 2 1 [7, 9, 3, 4] = (0, [7, 9], [7, 9, 3, 4])
    ∧ burn_block memDev4 2 0 2 1 (mk_patterns 2) [7, 9, 3, 4]
        = (0, [255, 255], [255, 255, 3, 4])
    ∧ ([255, 255] : List Nat) ≠ [7, 9] := by
  refine ⟨by rfl, by rfl, by decide⟩

/-- C3: the claim says the loop invokes the Step Tester with the truncated
batch size, so no I/O covers a block at or beyond the device end.  The code
computes the trimmed stepping (bbf_burnin.cpp:156) but passes the untrimmed
`stepping_` to `burn_block` (bbf_burnin.cpp:158): on a 5-block device with
stepping 2 and requested range `[0..5)`, the final batch at cursor 4 issues
writes (and reads) with count 2, covering blocks 4 and 5 — one block past
the device's logical block count of 5. -/
theorem C3_final_batch_io_past_device_end :
    (true, 4, 2) ∈ (burnin_run logDev5 ⟨0, 5, 2, 1, 100⟩ [] (fun _ => false) 10 []).1.st
    ∧ logDev5.logical_block_count < 4 + 2 := by
  refine ⟨by decide, by decide⟩

end Bbf

namespace Bbf

/-! ## Helper lemmas -/

/-- The Step Tester decomposed: `burn_block` equals the capture phase,
then the pattern phase, then the final restore `retry_write` on the
buffer and device state the pattern phase left behind — every status
produced before the restore loop is discarded. -/
theorem burn_block_decomposed {σ : Type} (d : BlkDev σ)
    (stepping_ block buflen retries : Nat) (patterns_ : List (List Nat)) (st : σ) :
    burn_block d stepping_ block buflen retries patterns_ st =
      (let pp := pattern_phase d stepping_ block buflen retries patterns_
          (capture_phase d stepping_ block buflen retries st)
       let restore := retry_write d block stepping_ pp.2.1 buflen retries pp.2.2
       (restore.1, pp.2.1, restore.2)) := by
  unfold burn_block capture_phase
  rcases hr : retry_read d block stepping_ buflen retries st with ⟨rv, buf, st1⟩
  by_cases h : rv < 0 <;> simp [h]

/-- Unfolding equation for `burnin_params`. -/
theorem burnin_params_eq {σ : Type} (d : BlkDev σ) (opts : Options) :
    burnin_params d opts =
      (let s := if opts.stepping = 0 then d.block_stepping else opts.stepping
       (s, s * d.logical_block_size, round_down opts.start_block s,
        min (round_up (min opts.end_block d.logical_block_count) s)
          d.logical_block_count)) := rfl

/-- Rounding down never exceeds the input. -/
theorem round_down_le (a s : Nat) : round_down a s ≤ a :=
  Nat.div_mul_le_self a s

/-- The result of rounding down is a multiple. -/
theorem round_down_dvd (a s : Nat) : s ∣ round_down a s :=
  Dvd.intro_left _ rfl

/-- Rounding down yields the greatest multiple below the input. -/
theorem round_down_greatest (a s : Nat) (hs : 0 < s) (m : Nat) (hm : s ∣ m)
    (hle : m ≤ a) : m ≤ round_down a s := by
  obtain ⟨j, rfl⟩ := hm
  unfold round_down
  have hj : j ≤ a / s := (Nat.le_div_iff_mul_le hs).2 (by rw [Nat.mul_comm]; exact hle)
  calc s * j ≤ s * (a / s) := Nat.mul_le_mul_left s hj
    _ = a / s * s := Nat.mul_comm _ _

/-- Rounding up is inflationary (for a positive multiple). -/
theorem le_round_up (a s : Nat) (hs : 0 < s) : a ≤ round_up a s := by
  unfold round_up
  have hdm := Nat.div_add_mod (a + (s - 1)) s
  have hmod : (a + (s - 1)) % s < s := Nat.mod_lt _ hs
  have hq : (a + (s - 1)) / s * s = s * ((a + (s - 1)) / s) := Nat.mul_comm _ _
  rw [hq]
  omega

/-- The result of rounding up is a multiple. -/
theorem round_up_dvd (a s : Nat) : s ∣ round_up a s :=
  Dvd.intro_left _ rfl

/-- Rounding up yields the least multiple above the input. -/
theorem round_up_least (a s : Nat) (hs : 0 < s) (m : Nat) (hm : s ∣ m)
    (hle : a ≤ m) : round_up a s ≤ m := by
  obtain ⟨j, rfl⟩ := hm
  unfold round_up
  have h1 : a + (s - 1) ≤ s * j + (s - 1) := by omega
  have h2 : (a + (s - 1)) / s ≤ (s * j + (s - 1)) / s := Nat.div_le_div_right h1
  have h3 : (s * j + (s - 1)) / s = j + (s - 1) / s := Nat.mul_add_div hs j (s - 1)
  have h4 : (s - 1) / s = 0 := Nat.div_eq_of_lt (by omega)
  have h5 : (a + (s - 1)) / s ≤ j := by omega
  calc (a + (s - 1)) / s * s ≤ j * s := Nat.mul_le_mul_right s h5
    _ = s * j := Nat.mul_comm _ _

end Bbf

namespace Bbf

/-- C4: whenever the Stepping Calculator returns zero for the current
position, the burn-in loop terminates without testing any further batch.
Conjunct 1: the effective end block computed by `burnin`
(bbf_burnin.cpp:203-205) never exceeds the device's logical block count, so
the hypothesis `hend` holds for every real invocation of the loop.
Conjunct 2: with a positive requested stepping and such an end block, a
zero result of `trim_stepping` at the cursor forces the cursor to be at or
past the device end, hence at or past `end_block`: the loop's `while` guard
fails and it exits as COMPLETED with no further batch tested.  Conjunct 3:
at any position the guard admits, `trim_stepping` is positive, so each
executed iteration strictly advances the cursor — a zero batch size can
never re-test the same position indefinitely. -/
theorem C4_zero_stepping_means_loop_done {σ : Type} (d : BlkDev σ)
    (opts : Options) (end_block stepping_ buflen max_errors_ retries : Nat)
    (patterns : List (List Nat)) (signaled : Nat → Bool)
    (fuel iter : Nat) (s : LoopState σ)
    (hstep : 1 ≤ stepping_) (hend : end_block ≤ d.logical_block_count)
    (h0 : trim_stepping d s.block stepping_ = 0) :
    (burnin_params d opts).2.2.2 ≤ d.logical_block_count
    ∧ burnin_loop_go d end_block stepping_ buflen max_errors_ retries
        patterns signaled (fuel + 1) iter s = (s, .completed)
    ∧ (∀ b, b < end_block → 0 < trim_stepping d b stepping_) := by
  refine ⟨?_, ?_, ?_⟩
  · simp [burnin_params]
  · have hge : d.logical_block_count ≤ s.block := by
      unfold trim_stepping at h0
      by_cases h : s.block > d.logical_block_count
      · omega
      · simp [h] at h0
        omega
    have : ¬ s.block < end_block := by omega
    simp [burnin_loop_go, this]
  · intro b hb
    unfold trim_stepping
    have h1 : ¬ b > d.logical_block_count := by omega
    simp [h1]
    omega

/-- C4 witness: on the 1000-block device, with the cursor already at block
1000 the Stepping Calculator yields 0 and one more loop step returns the
state unchanged with the COMPLETED exit. -/
theorem C4_witness :
    burnin_loop_go failDev300 1000 100 100 1000 2 (mk_patterns 100)
        (fun _ => false) 1 0 ⟨1000, [], (), 0⟩
      = (⟨1000, [], (), 0⟩, .completed) :=
  (C4_zero_stepping_means_loop_done failDev300 ⟨0, 10, 2, 1, 5⟩ 1000 100 100
    1000 2 (mk_patterns 100) (fun _ => false) 0 0 ⟨1000, [], (), 0⟩
    (by decide) (by decide) (by decide)).2.1

/-- C5: the Step Tester's exit status equals the status of the final
restore operation, and the batch is classified bad (a failing status)
exactly when that restore write fails after exhausting its retries: the
statuses produced during Step 2 — including the `-EIO` of a pattern
write/read/compare mismatch — are overwritten before `burn_block` returns
(bbf_burnin.cpp:106-110).  Conjunct 1 equates the status of `burn_block`
with the status of the restore `retry_write` run on the buffer and device
state the pattern phase left; conjunct 2 is the bad-iff-restore-failed
reading of that equality; conjunct 3 states that a successful restore
yields a non-failing (good) classification no matter what the pattern
phase reported. -/
theorem C5_outcome_is_final_restore_status {σ : Type} (d : BlkDev σ)
    (stepping_ block buflen retries : Nat) (patterns_ : List (List Nat)) (st : σ) :
    ((burn_block d stepping_ block buflen retries patterns_ st).1
      = (retry_write d block stepping_
          (pattern_phase d stepping_ block buflen retries patterns_
            (capture_phase d stepping_ block buflen retries st)).2.1 buflen retries
          (pattern_phase d stepping_ block buflen retries patterns_
            (capture_phase d stepping_ block buflen retries st)).2.2).1)
    ∧ ((burn_block d stepping_ block buflen retries patterns_ st).1 < 0 ↔
        (retry_write d block stepping_
          (pattern_phase d stepping_ block buflen retries patterns_
            (capture_phase d stepping_ block buflen retries st)).2.1 buflen retries
          (pattern_phase d stepping_ block buflen retries patterns_
            (capture_phase d stepping_ block buflen retries st)).2.2).1 < 0)
    ∧ (0 ≤ (retry_write d block stepping_
          (pattern_phase d stepping_ block buflen retries patterns_
            (capture_phase d stepping_ block buflen retries st)).2.1 buflen retries
          (pattern_phase d stepping_ block buflen retries patterns_
            (capture_phase d stepping_ block buflen retries st)).2.2).1 →
        0 ≤ (burn_block d stepping_ block buflen retries patterns_ st).1) := by
  rw [burn_block_decomposed]
  exact ⟨rfl, Iff.rfl, fun h => h⟩

/-- C5 witness: the equality of statuses evaluated on the in-memory device
at batch `[0..2)` — every pattern verification mismatch there has been
discarded and the status is the restore write's. -/
theorem C5_witness :
    (burn_block memDev4 2 0 2 1 (mk_patterns 2) [7, 9, 3, 4]).1
      = (retry_write memDev4 0 2
          (pattern_phase memDev4 2 0 2 1 (mk_patterns 2)
            (capture_phase memDev4 2 0 2 1 [7, 9, 3, 4])).2.1 2 1
          (pattern_phase memDev4 2 0 2 1 (mk_patterns 2)
            (capture_phase memDev4 2 0 2 1 [7, 9, 3, 4])).2.2).1 :=
  (C5_outcome_is_final_restore_status memDev4 2 0 2 1 (mk_patterns 2)
    [7, 9, 3, 4]).1

/-- C6: the Stepping Calculator returns 0 for every position at or beyond
the device's block count (the source tests `block_ > block_count`, and at
equality `min(block_count - block_, stepping_) = 0` as well), returns
`min(s, total - p)` below it, and hence returns exactly `total - p` for a
final batch that would overrun the device. -/
theorem C6_trim_stepping_contract {σ : Type} (d : BlkDev σ) (p s : Nat) :
    (d.logical_block_count ≤ p → trim_stepping d p s = 0)
    ∧ (p < d.logical_block_count →
        trim_stepping d p s = min s (d.logical_block_count - p))
    ∧ (p < d.logical_block_count → d.logical_block_count < p + s →
        trim_stepping d p s = d.logical_block_count - p) := by
  unfold trim_stepping
  refine ⟨fun h => ?_, fun h => ?_, fun h h2 => ?_⟩
  · by_cases hgt : p > d.logical_block_count
    · simp [hgt]
    · simp [hgt]
      omega
  · have hgt : ¬ p > d.logical_block_count := by omega
    simp [hgt]
    omega
  · have hgt : ¬ p > d.logical_block_count := by omega
    simp [hgt]
    omega

/-- C6 witness: on the 5-block device, position 7 yields 0 and position 3
with requested stepping 9 yields the 2 remaining blocks. -/
theorem C6_witness :
    trim_stepping logDev5 7 2 = 0 ∧ trim_stepping logDev5 3 9 = 2 :=
  ⟨(C6_trim_stepping_contract logDev5 7 2).1 (by decide),
   by
    have := (C6_trim_stepping_contract logDev5 3 9).2.2 (by decide) (by decide)
    simpa using this⟩

end Bbf

namespace Bbf

/-- C7 counterexample: the claim says an invalid-parameter failure from a
device read or write is never retried, with no further attempt on the same
operation.  On the device whose first write returns `-EINVAL` and whose
second succeeds, the source's retry loop (`i <= retries && rv < 0`,
bbf_burnin.cpp:64) makes a second attempt after the invalid-parameter
failure — with one retry allowed it returns success with two write attempts
performed. -/
theorem C7_einval_retried_counterexample :
    (einvalOnceDev.write 0 0 1 [0] 1).1 = -EINVAL
    ∧ retry_write einvalOnceDev 0 1 [0] 1 1 0 = (0, 2) := by
  refine ⟨by decide, by decide⟩

/-- C7 amended: an invalid-parameter failure of a single device read or
write is retried inside the bounded retry loops like any other failure
(conjuncts 1-2: a first attempt failing with `-EINVAL` is followed by the
remaining write, respectively read, attempts); the run terminates
immediately exactly when the Step Tester's overall status is `-EINVAL` —
the if direction (conjunct 3): such an iteration appends no bad blocks and
exits the loop FATAL (bbf_burnin.cpp:162-163); the only-if direction
(conjunct 4): when the Step Tester's status is not `-EINVAL`, the loop
iteration does not exit FATAL, and by conjunct 5 that status is exactly
the final restore write's status, so an `-EINVAL` occurring only during
the pattern phase or the initial capture read — discarded with the rest of
the Step 2 statuses — does not stop the run.  Conjuncts 6-7: the `-EINVAL`
status of a fatal exit is surfaced by the middle `burnin` as a fatal
runtime error, not a bad-block finding. -/
theorem C7_amended_einval_semantics {σ : Type} (d : BlkDev σ)
    (end_block stepping_ buflen max_errors_ retries : Nat)
    (patterns : List (List Nat)) (signaled : Nat → Bool) (fuel iter : Nat)
    (s : LoopState σ) (block count buflen2 r : Nat) (buf : List Nat) (st : σ) :
    ((d.write st block count buf buflen2).1 = -EINVAL →
      retry_write d block count buf buflen2 (r + 1) st
        = retry_write d block count buf buflen2 r (d.write st block count buf buflen2).2)
    ∧ ((d.read st block count buflen2).1 = -EINVAL →
      retry_read d block count buflen2 (r + 1) st
        = retry_read d block count buflen2 r (d.read st block count buflen2).2.2)
    ∧ (s.block < end_block → signaled iter = false →
        (burn_block d stepping_ s.block buflen retries patterns s.st).1 = -EINVAL →
        burnin_loop_go d end_block stepping_ buflen max_errors_ retries patterns
            signaled (fuel + 1) iter s
          = (⟨s.block + trim_stepping d s.block stepping_, s.badblocks,
              (burn_block d stepping_ s.block buflen retries patterns s.st).2.2,
              -EINVAL⟩, .fatal))
    ∧ ((burn_block d stepping_ s.block buflen retries patterns s.st).1 ≠ -EINVAL →
        (burnin_loop_go d end_block stepping_ buflen max_errors_ retries patterns
            signaled 1 iter s).2 ≠ .fatal)
    ∧ ((burn_block d stepping_ s.block buflen retries patterns s.st).1
        = (retry_write d s.block stepping_
            (pattern_phase d stepping_ s.block buflen retries patterns
              (capture_phase d stepping_ s.block buflen retries s.st)).2.1 buflen retries
            (pattern_phase d stepping_ s.block buflen retries patterns
              (capture_phase d stepping_ s.block buflen retries s.st)).2.2).1)
    ∧ burnin_mid_result (-EINVAL) = .runtime EINVAL
    ∧ (burnin_mid_result (-EINVAL)).succeeded = false := by
  refine ⟨?_, ?_, ?_, ?_, ?_, by decide, by decide⟩
  · intro h
    rcases hw : d.write st block count buf buflen2 with ⟨rv, st2⟩
    rw [hw] at h
    simp only at h
    subst h
    simp [retry_write, hw, EINVAL]
  · intro h
    rcases hr : d.read st block count buflen2 with ⟨rv, data, st2⟩
    rw [hr] at h
    simp only at h
    subst h
    simp [retry_read, hr, EINVAL]
  · intro hlt hsig hbb
    rcases hb : burn_block d stepping_ s.block buflen retries patterns s.st
      with ⟨rv, buf2, st2⟩
    rw [hb] at hbb
    simp only at hbb
    subst hbb
    simp [burnin_loop_go, hlt, hsig, hb, EINVAL]
  · intro hne
    rcases hb : burn_block d stepping_ s.block buflen retries patterns s.st
      with ⟨rv, buf2, st2⟩
    rw [hb] at hne
    simp only at hne
    by_cases hg : s.block < end_block
    · by_cases hsg : signaled iter
      · simp [burnin_loop_go, hg, hsg]
      · by_cases hge : rv ≥ 0
        · simp [burnin_loop_go, hg, hsg, hb, hge]
        · by_cases hlim : s.badblocks.length + trim_stepping d s.block stepping_ > max_errors_
          · simp [burnin_loop_go, hg, hsg, hb, hge, hne, hlim]
          · simp [burnin_loop_go, hg, hsg, hb, hge, hne, hlim]
    · simp [burnin_loop_go, hg]
  · rw [burn_block_decomposed]

/-- C7 witness: on the device whose every write fails with `-EINVAL`, the
Step Tester's restore write ultimately fails with `-EINVAL` and one loop
step exits FATAL with the bad-block list untouched; on the device whose
`-EINVAL` failures are confined to the pattern-phase writes (the restore
write succeeds), the loop iteration does not exit FATAL — the run goes
on. -/
theorem C7_witness :
    (burnin_loop_go einvalDev 16 1 1 100 1 (mk_patterns 1) (fun _ => false) 1 0
        ⟨0, [], (), 0⟩
      = (⟨0 + trim_stepping einvalDev 0 1, [],
          (burn_block einvalDev 1 0 1 1 (mk_patterns 1) ()).2.2, -EINVAL⟩, .fatal))
    ∧ (burnin_loop_go einvalPatternDev 16 1 1 100 0 (mk_patterns 1)
        (fun _ => false) 1 0 ⟨0, [], 0, 0⟩).2 ≠ .fatal :=
  ⟨(C7_amended_einval_semantics einvalDev 16 1 1 100 1 (mk_patterns 1)
      (fun _ => false) 0 0 ⟨0, [], (), 0⟩ 0 1 1 0 [0] ()).2.2.1
      (by decide) (by decide) (by decide),
   (C7_amended_einval_semantics einvalPatternDev 16 1 1 100 0 (mk_patterns 1)
      (fun _ => false) 0 0 ⟨0, [], 0, 0⟩ 0 1 1 0 [0] 0).2.2.2.1
      (by decide)⟩

/-- C8 counterexample: the claim says that when the run succeeds and saving
the bad-block list fails, the overall result still reports the run as
successful.  The source (bbf_burnin.cpp:305-307) replaces a successful
result with the save error: with a successful run and a failing save the
returned result is the save failure, not success. -/
theorem C8_save_failure_overwrites_success :
    burnin_post .success (-5) 0 = .writing_badblocks_file 5
    ∧ (burnin_post .success (-5) 0).succeeded = false := by
  refine ⟨by decide, by decide⟩

/-- C8 amended: if the burn-in run succeeds but saving the bad-block list
fails, the save failure becomes the overall result of the burnin operation
(conjunct 1); a save failure (or close failure) never overwrites an
already-failed run result, which is returned unchanged (conjunct 2). -/
theorem C8_amended_result_combination (run_err : AppError)
    (write_rv close_rv : Int) :
    (run_err = .success → write_rv < 0 →
      burnin_post run_err write_rv close_rv = .writing_badblocks_file (-write_rv))
    ∧ (run_err.succeeded = false →
        burnin_post run_err write_rv close_rv = run_err) := by
  constructor
  · rintro rfl hw
    simp [burnin_post, AppError.succeeded, hw]
  · intro h
    simp [burnin_post, h]

/-- C8 witness: a successful run with a failing save returns the save
error; a failed run keeps its own error despite the failing save. -/
theorem C8_witness :
    burnin_post .success (-7) 0 = .writing_badblocks_file 7 ∧
    burnin_post (.runtime 9) (-7) 0 = .runtime 9 :=
  ⟨(C8_amended_result_combination .success (-7) 0).1 rfl (by decide),
   (C8_amended_result_combination (.runtime 9) (-7) 0).2 (by decide)⟩

end Bbf

namespace Bbf

/-- C9: before the loop, `burnin` (bbf_burnin.cpp:197-205) re-aligns the
requested range to the stepping.  The effective start block is the
requested start rounded down to a multiple of the stepping (it is a
multiple, at most the requested start, and the greatest such multiple);
the effective end block is `min(requested end, logical_block_count)`
rounded up to a multiple of the stepping and capped again at
`logical_block_count` (it is at least the clamped requested end, at most
the block count, either a multiple or the block count itself, and minimal
among multiples at least the clamped end).  Consequently blocks outside
the user-requested `[start_block, end_block)` may be covered: the final
conjunct exhibits a device and options where the effective start lies
strictly below the requested start and the effective end strictly above
the requested end — and `burnin_loop` starts its cursor at the effective
start and runs to the effective end. -/
theorem C9_effective_range_realignment {σ : Type} (d : BlkDev σ) (opts : Options)
    (hs : 0 < (burnin_params d opts).1) :
    (burnin_params d opts).1 ∣ (burnin_params d opts).2.2.1
    ∧ (burnin_params d opts).2.2.1 ≤ opts.start_block
    ∧ (∀ m, (burnin_params d opts).1 ∣ m → m ≤ opts.start_block →
        m ≤ (burnin_params d opts).2.2.1)
    ∧ min opts.end_block d.logical_block_count ≤ (burnin_params d opts).2.2.2
    ∧ (burnin_params d opts).2.2.2 ≤ d.logical_block_count
    ∧ ((burnin_params d opts).1 ∣ (burnin_params d opts).2.2.2
        ∨ (burnin_params d opts).2.2.2 = d.logical_block_count)
    ∧ (∀ m, (burnin_params d opts).1 ∣ m →
        min opts.end_block d.logical_block_count ≤ m →
        (burnin_params d opts).2.2.2 ≤ m)
    ∧ (∃ (dev : BlkDev Unit) (o : Options),
        (burnin_params dev o).2.2.1 < o.start_block
        ∧ o.end_block < (burnin_params dev o).2.2.2) := by
  rw [burnin_params_eq] at hs ⊢
  simp only at hs ⊢
  set S := if opts.stepping = 0 then d.block_stepping else opts.stepping with hS
  set x := min opts.end_block d.logical_block_count with hx
  refine ⟨round_down_dvd _ _, round_down_le _ _,
    fun m hm hle => round_down_greatest _ _ hs m hm hle,
    Nat.le_min.2 ⟨le_round_up _ _ hs, Nat.min_le_right _ _⟩,
    Nat.min_le_right _ _, ?_, ?_, ?_⟩
  · rcases Nat.le_total (round_up x S) d.logical_block_count with h | h
    · exact Or.inl (by rw [Nat.min_eq_left h]; exact round_up_dvd _ _)
    · exact Or.inr (Nat.min_eq_right h)
  · exact fun m hm hle =>
      Nat.le_trans (Nat.min_le_left _ _) (round_up_least _ _ hs m hm hle)
  · exact ⟨failDev300, ⟨150, 250, 100, 1, 5⟩, by decide, by decide⟩

/-- C9 witness: for the 1000-block device with requested range
`[150..250)` and stepping 100, the effective start block is a multiple of
the stepping. -/
theorem C9_witness :
    (burnin_params failDev300 ⟨150, 250, 100, 1, 5⟩).1
      ∣ (burnin_params failDev300 ⟨150, 250, 100, 1, 5⟩).2.2.1 :=
  (C9_effective_range_realignment failDev300 ⟨150, 250, 100, 1, 5⟩ (by decide)).1

/-- C10: the maximum-tolerated-bad-block ceiling is evaluated against the
whole bad-block list.  Conjunct 3: the loop is seeded with exactly the
list imported from the input persistence file (`burnin_run` hands
`imported` to `burnin_loop` unchanged, as bbf_burnin.cpp:295/303 pass the
vector filled by `BadBlockFile::read` into the loop).  Conjuncts 1-2: a
loop iteration whose batch is classified bad appends the batch and stops
via the limit path precisely when the total list length — imported entries
plus everything recorded this run plus this batch — exceeds the configured
maximum; hence a run starting from a pre-populated list reaches the limit
with correspondingly fewer newly found bad blocks. -/
theorem C10_limit_counts_imported {σ : Type} (d : BlkDev σ)
    (end_block stepping_ buflen max_errors_ retries : Nat)
    (patterns : List (List Nat)) (signaled : Nat → Bool) (iter : Nat)
    (s : LoopState σ)
    (hin : s.block < end_block) (hsig : signaled iter = false)
    (hbad : (burn_block d stepping_ s.block buflen retries patterns s.st).1 < 0)
    (hnei : (burn_block d stepping_ s.block buflen retries patterns s.st).1 ≠ -EINVAL) :
    ((burnin_loop_go d end_block stepping_ buflen max_errors_ retries patterns
          signaled 1 iter s).2 = .limit
      ↔ max_errors_ < s.badblocks.length + trim_stepping d s.block stepping_)
    ∧ (burnin_loop_go d end_block stepping_ buflen max_errors_ retries patterns
          signaled 1 iter s).1.badblocks
        = s.badblocks ++ (List.range (trim_stepping d s.block stepping_)).map
            (fun i => s.block + trim_stepping d s.block stepping_ + i)
    ∧ (∀ (imported : List Nat) (o : Options) (st0 : σ) (sig : Nat → Bool),
        (burnin_run d o imported sig 0 st0).1.badblocks = imported) := by
  rcases hb : burn_block d stepping_ s.block buflen retries patterns s.st
    with ⟨rv, buf2, st2⟩
  rw [hb] at hbad hnei
  simp only at hbad hnei
  have hge : ¬ rv ≥ 0 := by omega
  refine ⟨?_, ?_, ?_⟩
  · simp [burnin_loop_go, hin, hsig, hb, hge, hnei]
    constructor
    · intro h
      split at h
      · omega
      · simp [burnin_loop_go] at h
    · intro h
      simp [h]
  · simp [burnin_loop_go, hin, hsig, hb, hge, hnei]
    split
    · rfl
    · simp [burnin_loop_go]
  · intro imported o st0 sig
    rcases hp : burnin_params d o with ⟨S, B, SB, EB⟩
    simp [burnin_run, hp, burnin_loop, burnin_loop_go]

/-- C10 witness: on the 10-block device whose first batch fails restore,
a run whose list already holds three imported entries and whose ceiling is
3 stops via the limit path after that single bad batch of two blocks
(3 + 2 > 3), even though only two bad blocks were newly found. -/
theorem C10_witness :
    (burnin_loop_go failDev0 10 2 2 3 1 (mk_patterns 2) (fun _ => false) 1 0
        ⟨0, [90, 91, 92], (), 0⟩).2 = .limit :=
  ((C10_limit_counts_imported failDev0 10 2 2 3 1 (mk_patterns 2)
      (fun _ => false) 0 ⟨0, [90, 91, 92], (), 0⟩
      (by decide) (by decide) (by decide) (by decide)).1).mpr (by decide)

end Bbf
